import Mathlib

/-!
Verification development for the aubo-rs ZygiskNext interception module
(src/cpp/aubo_module.cpp).  The C++ source is shallowly embedded: each C
function becomes a Lean function over an explicit environment describing the
outcomes of the system calls it performs, and instrumented run records track
the observable effects (which trampoline was called with which arguments,
which oracle queries were issued, which descriptors were closed, ...).
-/

namespace Aubo

/-- Type of the bound `aubo_should_block_request` entry point:
`q target requestKind origin` returns an `Int`; nonzero means block. -/
abbrev Query : Type := String → String → String → Int

/-! ## Interception handlers (aubo_module.cpp lines 64-103)

Pointers are modelled as `Option`: `none` is the null pointer.  Each handler
is parametrised by the global `aubo_should_block_request` pointer (`none`
when the symbol was never bound) and by its saved trampoline (`old_*`), and
returns a run record: the value returned to the caller, the oracle query
issued (if any), and the trampoline invocation with its arguments (if any).
-/

/-- Run record of one intercepted `gethostbyname` call.  `result = none`
models returning a null `hostent*` (host not found); `α` is the abstract
type of a non-null `hostent` value produced by the trampoline. -/
structure GhbnRun (α : Type) where
  result : Option α
  oracleCall : Option (String × String × String)
  trampCall : Option (Option String)

/-- Embedding of `my_gethostbyname` (lines 75-88). -/
def my_gethostbyname {α : Type} (aubo_should_block_request : Option Query)
    (old_gethostbyname : Option String → Option α) (name : Option String) :
    GhbnRun α :=
  match name, aubo_should_block_request with
  | some n, some q =>
    if q n "dns" "gethostbyname" ≠ 0 then
      ⟨none, some (n, "dns", "gethostbyname"), none⟩
    else
      ⟨old_gethostbyname (some n), some (n, "dns", "gethostbyname"),
        some (some n)⟩
  | _, _ => ⟨old_gethostbyname name, none, some name⟩

/-- The value of `EAI_NONAME` in the Android C library headers.  The proofs
below depend only on the handler returning this named constant, not on the
particular number. -/
def EAI_NONAME : Int := 8

/-- Run record of one intercepted `getaddrinfo` call.  `η` and `ρ` are the
abstract types of the `hints` and `res` pointer arguments, which the handler
only forwards. -/
structure GaiRun (η ρ : Type) where
  result : Int
  oracleCall : Option (String × String × String)
  trampCall : Option (Option String × Option String × η × ρ)

/-- Embedding of `my_getaddrinfo` (lines 90-103). -/
def my_getaddrinfo {η ρ : Type} (aubo_should_block_request : Option Query)
    (old_getaddrinfo : Option String → Option String → η → ρ → Int)
    (node service : Option String) (hints : η) (res : ρ) : GaiRun η ρ :=
  match node, aubo_should_block_request with
  | some n, some q =>
    if q n "dns" "getaddrinfo" ≠ 0 then
      ⟨EAI_NONAME, some (n, "dns", "getaddrinfo"), none⟩
    else
      ⟨old_getaddrinfo (some n) service hints res,
        some (n, "dns", "getaddrinfo"), some (some n, service, hints, res)⟩
  | _, _ =>
    ⟨old_getaddrinfo node service hints res, none,
      some (node, service, hints, res)⟩

/-- Run record of one intercepted `connect` call.  `σ` is the abstract type
of a non-null `sockaddr` value. -/
structure ConnRun (σ : Type) where
  result : Int
  oracleCall : Option Unit
  trampCall : Option (Int × Option σ × Nat)

/-- Embedding of `my_connect` (lines 64-73): it only logs and always calls
the original `connect`; the oracle is never queried. -/
def my_connect {σ : Type} (aubo_should_block_request : Option Query)
    (old_connect : Int → Option σ → Nat → Int)
    (sockfd : Int) (addr : Option σ) (addrlen : Nat) : ConnRun σ :=
  ⟨old_connect sockfd addr addrlen, none, some (sockfd, addr, addrlen)⟩

/-! ## Memory-backed loading (aubo_module.cpp lines 105-226)

`load_library_via_memfd` is embedded over an environment giving the outcome
of every system call it performs: whether `open`, `fstat`, `memfd_create`,
the ashmem fallback, `ftruncate` and the final `dlopen` succeed, the source
file size, and the value returned by the k-th `read` and `write` call of
the copy loop.  The run record tracks the returned handle, the `copied`
counter, the total number of bytes actually written to the memory
descriptor, which descriptors were closed, and whether `dlopen` was
reached.
-/

/-- Environment for one `load_library_via_memfd` attempt. -/
structure MemfdEnv where
  open_ok : Bool
  fstat_ok : Bool
  file_size : Int
  memfd_create_ok : Bool
  ashmem_open_ok : Bool
  ashmem_set_size_ok : Bool
  ftruncate_ok : Bool
  reads : Nat → Int
  writes : Nat → Int
  dlopen_handle : Option Nat

/-- Run record of one `load_library_via_memfd` attempt. -/
structure MemfdRun where
  handle : Option Nat
  copied : Int
  written : Int
  src_closed : Bool
  memfd_closed : Bool
  dlopen_called : Bool

/-- The copy loop of lines 172-194.  `k` counts iterations, `copied` and
`written` accumulate; `written` also counts the bytes of a final partial
write, which the C code performs before noticing the shortfall.  Fuel
bounds the iteration count; every continuing iteration adds at least one
byte to `copied`, so `file_size.toNat + 1` units of fuel are never
exhausted while `copied < file_size`. -/
def copy_loop (reads writes : Nat → Int) (file_size : Int) :
    Nat → Nat → Int → Int → Int × Int
  | 0, _, copied, written => (copied, written)
  | fuel + 1, k, copied, written =>
    if copied < file_size then
      let bytes_read := reads k
      if bytes_read ≤ 0 then (copied, written)
      else
        let bytes_written := writes k
        if bytes_written ≠ bytes_read then
          (copied, written + max bytes_written 0)
        else
          copy_loop reads writes file_size fuel (k + 1)
            (copied + bytes_written) (written + bytes_written)
    else (copied, written)

/-- Embedding of `load_library_via_memfd` (lines 106-226). -/
def load_library_via_memfd (e : MemfdEnv) : MemfdRun :=
  if !e.open_ok then
    ⟨none, 0, 0, false, false, false⟩
  else if !e.fstat_ok then
    ⟨none, 0, 0, true, false, false⟩
  else
    -- memfd_create first, ashmem fallback (lines 127-162)
    if !e.memfd_create_ok && !e.ashmem_open_ok then
      ⟨none, 0, 0, true, false, false⟩
    else if !e.memfd_create_ok && e.ashmem_open_ok &&
        !e.ashmem_set_size_ok then
      ⟨none, 0, 0, true, true, false⟩
    else if !e.ftruncate_ok then
      ⟨none, 0, 0, true, true, false⟩
    else
      let cw := copy_loop e.reads e.writes e.file_size
        (e.file_size.toNat + 1) 0 0 0
      -- close(source_fd) at line 196, then the completeness check
      if cw.1 ≠ e.file_size then
        ⟨none, cw.1, cw.2, true, true, false⟩
      else
        match e.dlopen_handle with
        | none => ⟨none, cw.1, cw.2, true, true, true⟩
        | some h =>
          -- the memfd is deliberately kept open (lines 222-223)
          ⟨some h, cw.1, cw.2, true, false, true⟩

/-- In the copy loop, `written` stays equal to `copied` except after a
final short write, which only happens while `copied < file_size`; hence a
loop run started with equal accumulators that ends with
`copied = file_size` also has `written = file_size`. -/
theorem copy_loop_written_eq (reads writes : Nat → Int) (file_size : Int) :
    ∀ fuel k copied written, written = copied →
      (copy_loop reads writes file_size fuel k copied written).1 =
        file_size →
      (copy_loop reads writes file_size fuel k copied written).2 =
        file_size := by
  intro fuel
  induction fuel with
  | zero => intro k c w hw h; simpa [copy_loop, hw] using h
  | succ fuel ih =>
    intro k c w hw h
    by_cases hc : c < file_size
    · by_cases hr : reads k ≤ 0
      · rw [copy_loop] at h ⊢
        simp only [if_pos hc, if_pos hr] at h ⊢
        omega
      · by_cases hweq : writes k ≠ reads k
        · rw [copy_loop] at h ⊢
          simp only [if_pos hc, if_neg hr, if_pos hweq] at h ⊢
          omega
        · rw [copy_loop] at h ⊢
          simp only [if_pos hc, if_neg hr, if_neg hweq] at h ⊢
          push_neg at hweq
          exact ih _ _ _ (by omega) h
    · rw [copy_loop] at h ⊢
      simp only [if_neg hc] at h ⊢
      omega

/-- C5: a memory-backed load attempt that produces a handle wrote exactly
the source file size to the anonymous descriptor; an attempt that reaches
the copy phase but whose copy falls short returns no handle, closes both
the source and the memory descriptor, and never reaches `dlopen`. -/
theorem memfd_copy_exact_or_abandoned (e : MemfdEnv) :
    (∀ h, (load_library_via_memfd e).handle = some h →
      (load_library_via_memfd e).copied = e.file_size ∧
      (load_library_via_memfd e).written = e.file_size) ∧
    (e.open_ok = true → e.fstat_ok = true →
      (e.memfd_create_ok = true ∨
        (e.ashmem_open_ok = true ∧ e.ashmem_set_size_ok = true)) →
      e.ftruncate_ok = true →
      (copy_loop e.reads e.writes e.file_size (e.file_size.toNat + 1)
          0 0 0).1 ≠ e.file_size →
      (load_library_via_memfd e).handle = none ∧
      (load_library_via_memfd e).src_closed = true ∧
      (load_library_via_memfd e).memfd_closed = true ∧
      (load_library_via_memfd e).dlopen_called = false) := by
  constructor
  · intro h hh
    unfold load_library_via_memfd at hh ⊢
    split_ifs at hh ⊢ with h1 h2 h3 h4 h5 <;>
      try simp at hh
    by_cases h7 : (copy_loop e.reads e.writes e.file_size
        (e.file_size.toNat + 1) 0 0 0).1 = e.file_size
    · cases hd : e.dlopen_handle <;> simp [hd, h7] at hh ⊢ <;>
        exact copy_loop_written_eq _ _ _ _ _ _ _ rfl h7
    · simp [h7] at hh
  · intro h1 h2 h34 h6 h7
    unfold load_library_via_memfd
    rcases h34 with h3 | ⟨h4, h5⟩
    · simp [h1, h2, h3, h6, h7]
    · simp [h1, h2, h4, h5, h6, h7]

/-- Witness for C5: a 3-byte file copied in one full read and one full
write yields a handle with exactly 3 bytes written, and the same
environment with an immediate EOF (short copy) is abandoned with both
descriptors closed. -/
theorem memfd_copy_exact_or_abandoned_witness :
    ((load_library_via_memfd
        ⟨true, true, 3, true, false, false, true,
          fun k => if k = 0 then 3 else 0,
          fun k => if k = 0 then 3 else 0, some 42⟩).written = 3 ∧
      (load_library_via_memfd
        ⟨true, true, 3, true, false, false, true, fun _ => 0,
          fun _ => 0, some 42⟩).handle = none ∧
      (load_library_via_memfd
        ⟨true, true, 3, true, false, false, true, fun _ => 0,
          fun _ => 0, some 42⟩).memfd_closed = true) := by
  refine ⟨((memfd_copy_exact_or_abandoned _).1 42 (by rfl)).2, ?_, ?_⟩
  · exact ((memfd_copy_exact_or_abandoned _).2 rfl rfl (Or.inl rfl) rfl
      (by decide)).1
  · exact ((memfd_copy_exact_or_abandoned _).2 rfl rfl (Or.inl rfl) rfl
      (by decide)).2.2.1

/-! ## The Rust library loader (aubo_module.cpp lines 228-287)

`load_rust_library` walks the fixed candidate list, skipping unreadable
paths, trying the memfd load first and direct `dlopen` second, and stopping
at the first handle; it then binds the three oracle entry points with
`dlsym`, releasing the handle if any is missing.  The globals of lines
52-56 are the fields of `GState`; `dlsym` results are given by the
environment as a `SymTable`.  The `aubo_initialize` global is named after
the C typedef `aubo_initialize_fn`, and likewise for the other two.
-/

/-- The `lib_paths` candidate list (lines 230-235), in source order. -/
def lib_paths : List String :=
  ["/data/adb/modules/aubo_rs/lib/libaubo_rs.so",
   "/data/adb/aubo-rs/lib/libaubo_rs.so",
   "/system/lib64/libaubo_rs.so",
   "/vendor/lib64/libaubo_rs.so"]

/-- The `dlsym` results for the three required entry points of the loaded
module.  The initialize pointer carries the status function the entry point
computes; the shutdown pointer carries no data the core ever uses. -/
structure SymTable where
  aubo_initialize_fn : Option (String → Int)
  aubo_shutdown_fn : Option Unit
  aubo_should_block_request_fn : Option Query

/-- The mutable globals of lines 52-56 that the loader writes. -/
structure GState where
  rust_lib_handle : Option Nat
  aubo_initialize_fn : Option (String → Int)
  aubo_shutdown_fn : Option Unit
  aubo_should_block_request_fn : Option Query

/-- The initial global state: every pointer is null. -/
def GState.start : GState := ⟨none, none, none, none⟩

/-- Environment of one `load_rust_library` run: the `access(_, R_OK)`
verdict per path, the memfd-load environment per path, the direct `dlopen`
outcome per path, and the `dlsym` results on the loaded module. -/
structure LoadEnv where
  readable : String → Bool
  memfdEnv : String → MemfdEnv
  direct_load : String → Option Nat
  syms : SymTable

/-- Outcome of the memfd strategy for one path (line 247). -/
def memfd_load (e : LoadEnv) (p : String) : Option Nat :=
  (load_library_via_memfd (e.memfdEnv p)).handle

/-- Whether some strategy yields a handle for a path. -/
def path_loadable (e : LoadEnv) (p : String) : Bool :=
  (memfd_load e p).isSome || (e.direct_load p).isSome

/-- The candidate loop of lines 237-263: returns the winning
`(path, handle, viaMemfd)` triple, if any, together with the list of paths
for which a load was actually attempted. -/
def tryPaths (e : LoadEnv) : List String → Option (String × Nat × Bool) × List String
  | [] => (none, [])
  | p :: rest =>
    if e.readable p then
      match memfd_load e p with
      | some h => (some (p, h, true), [p])
      | none =>
        match e.direct_load p with
        | some h => (some (p, h, false), [p])
        | none =>
          let r := tryPaths e rest
          (r.1, p :: r.2)
    else tryPaths e rest

/-- Instrumented report of one `load_rust_library` run. -/
structure LoadReport where
  ok : Bool
  module_found : Bool
  dlclosed : Bool
  attempted : List String

/-- Embedding of `load_rust_library` (lines 228-287). -/
def load_rust_library (e : LoadEnv) (s : GState) : GState × LoadReport :=
  let r := tryPaths e lib_paths
  let s1 : GState := match r.1 with
    | some (_, h, _) => { s with rust_lib_handle := some h }
    | none => s
  match s1.rust_lib_handle with
  | none => (s1, ⟨false, false, false, r.2⟩)
  | some _ =>
    -- dlsym binds all three globals before the all-present check
    -- (lines 271-283)
    let s2 : GState := { s1 with
      aubo_initialize_fn := e.syms.aubo_initialize_fn,
      aubo_shutdown_fn := e.syms.aubo_shutdown_fn,
      aubo_should_block_request_fn := e.syms.aubo_should_block_request_fn }
    if s2.aubo_initialize_fn.isNone || s2.aubo_shutdown_fn.isNone ||
        s2.aubo_should_block_request_fn.isNone then
      ({ s2 with rust_lib_handle := none }, ⟨false, true, true, r.2⟩)
    else (s2, ⟨true, true, false, r.2⟩)

/-- Characterization of the candidate loop: the winner is the first
readable and loadable path in list order, loaded via memfd when memfd
succeeds there and via direct `dlopen` otherwise, and the attempted list is
the readable prefix of non-winning candidates followed by the winner. -/
theorem tryPaths_eq (e : LoadEnv) : ∀ ps : List String,
    tryPaths e ps =
      match ps.find? (fun p => e.readable p && path_loadable e p) with
      | some p =>
        (some (p, match memfd_load e p with
          | some h => (h, true)
          | none => ((e.direct_load p).getD 0, false)),
         (ps.takeWhile
            (fun q => !(e.readable q && path_loadable e q))).filter
              e.readable ++ [p])
      | none => (none, ps.filter e.readable) := by
  intro ps
  induction ps with
  | nil => rfl
  | cons p rest ih =>
    by_cases hr : e.readable p
    · cases hm : memfd_load e p with
      | some h =>
        have hl : path_loadable e p = true := by
          simp [path_loadable, hm]
        simp [tryPaths, hr, hm, List.find?_cons, hl, List.takeWhile_cons,
          List.filter_cons]
      | none =>
        cases hd : e.direct_load p with
        | some h =>
          have hl : path_loadable e p = true := by
            simp [path_loadable, hm, hd]
          simp [tryPaths, hr, hm, hd, List.find?_cons, hl,
            List.takeWhile_cons, List.filter_cons]
        | none =>
          have hl : path_loadable e p = false := by
            simp [path_loadable, hm, hd]
          rw [tryPaths]
          simp only [hr, if_true, hm, hd]
          rw [ih]
          cases hf : rest.find? (fun q => e.readable q && path_loadable e q) <;>
            simp [List.find?_cons, hl, hr, List.takeWhile_cons,
              List.filter_cons, hf]
    · rw [tryPaths]
      simp only [hr, if_false]
      rw [ih]
      cases hf : rest.find? (fun q => e.readable q && path_loadable e q) <;>
        simp [List.find?_cons, hr, List.takeWhile_cons, List.filter_cons, hf]

/-- The load report passes the attempted list of the candidate loop
through unchanged. -/
theorem load_rust_library_attempted (e : LoadEnv) :
    (load_rust_library e GState.start).2.attempted =
      (tryPaths e lib_paths).2 := by
  obtain ⟨rd, me, dl, si, ss, sb⟩ := e
  unfold load_rust_library
  cases hw : (tryPaths ⟨rd, me, dl, si, ss, sb⟩ lib_paths).1 with
  | none => simp [hw, GState.start]
  | some w =>
    obtain ⟨wp, wh, wv⟩ := w
    cases si <;> cases ss <;> cases sb <;> simp [hw, GState.start]

/-- C4: starting from null globals, the loader tries candidates strictly in
list order: every attempted path passed the readability check; when no
readable candidate is loadable the loader reports module-not-found and
fails with no handle; otherwise the winner is the first readable and
loadable candidate in list order, won via memfd when memfd succeeds there
and via direct load only when memfd fails, and the attempted list stops at
the winner (no later candidate is tried). -/
theorem module_loader_first_wins (e : LoadEnv) :
    (∀ p ∈ (load_rust_library e GState.start).2.attempted,
      e.readable p = true) ∧
    (lib_paths.find? (fun p => e.readable p && path_loadable e p) = none →
      (load_rust_library e GState.start).2.module_found = false ∧
      (load_rust_library e GState.start).2.ok = false ∧
      (load_rust_library e GState.start).1.rust_lib_handle = none) ∧
    (∀ p h vm, (tryPaths e lib_paths).1 = some (p, h, vm) →
      lib_paths.find? (fun q => e.readable q && path_loadable e q) =
        some p ∧
      (vm = true → memfd_load e p = some h) ∧
      (vm = false → memfd_load e p = none ∧ e.direct_load p = some h) ∧
      (load_rust_library e GState.start).2.attempted =
        (lib_paths.takeWhile
          (fun q => !(e.readable q && path_loadable e q))).filter
            e.readable ++ [p]) := by
  have key := tryPaths_eq e lib_paths
  refine ⟨?_, ?_, ?_⟩
  · intro p hp
    rw [load_rust_library_attempted e] at hp
    cases hf : lib_paths.find? (fun q => e.readable q && path_loadable e q) with
    | none =>
      rw [key] at hp
      simp [hf] at hp
      exact hp.2
    | some w =>
      rw [key] at hp
      simp [hf] at hp
      rcases hp with hp | hp
      · exact hp.2
      · have hfw := List.find?_some hf
        simp at hfw
        rw [hp]
        exact hfw.1
  · intro hf
    have hw : (tryPaths e lib_paths).1 = none := by rw [key]; simp [hf]
    obtain ⟨rd, me, dl, si, ss, sb⟩ := e
    unfold load_rust_library
    simp [hw, GState.start]
  · intro p h vm hw
    rw [key] at hw
    cases hf : lib_paths.find? (fun q => e.readable q && path_loadable e q) with
    | none => simp [hf] at hw
    | some w =>
      simp only [hf] at hw
      have hw1 : (w, match memfd_load e w with
          | some h' => (h', true)
          | none => ((e.direct_load w).getD 0, false)) = (p, h, vm) :=
        Option.some.inj hw
      have hwp : w = p := congrArg Prod.fst hw1
      subst hwp
      have hpick : (match memfd_load e w with
          | some h' => (h', true)
          | none => ((e.direct_load w).getD 0, false)) = (h, vm) :=
        congrArg Prod.snd hw1
      refine ⟨rfl, ?_, ?_, ?_⟩
      · intro hvm
        cases hm : memfd_load e w with
        | some h' =>
          simp only [hm] at hpick
          have hh : h' = h := congrArg Prod.fst hpick
          exact congrArg some hh
        | none =>
          simp only [hm] at hpick
          have hv : false = vm := congrArg Prod.snd hpick
          rw [← hv] at hvm
          exact Bool.noConfusion hvm
      · intro hvm
        cases hm : memfd_load e w with
        | some h' =>
          simp only [hm] at hpick
          have hv : true = vm := congrArg Prod.snd hpick
          rw [← hv] at hvm
          exact Bool.noConfusion hvm
        | none =>
          simp only [hm] at hpick
          have hh : (e.direct_load w).getD 0 = h := congrArg Prod.fst hpick
          refine ⟨rfl, ?_⟩
          have hfw := List.find?_some hf
          simp at hfw
          have hds : (e.direct_load w).isSome = true := by
            simpa [path_loadable, hm] using hfw.2
          obtain ⟨x, hx⟩ := Option.isSome_iff_exists.mp hds
          rw [hx] at hh ⊢
          simp at hh
          rw [hh]
      · rw [load_rust_library_attempted e, key]
        simp [hf]

/-- A memfd-load environment whose very first step, opening the source
file, fails; the memfd strategy then yields no handle. -/
def memfdFailEnv : MemfdEnv :=
  ⟨false, true, 0, true, true, true, true, fun _ => 0, fun _ => 0, none⟩

/-- A loader environment where only the third candidate is readable, the
memfd strategy fails everywhere and the direct strategy succeeds on the
readable candidate; all three symbols are present. -/
def sysOnlyEnv : LoadEnv :=
  ⟨fun p => p == "/system/lib64/libaubo_rs.so",
    fun _ => memfdFailEnv,
    fun p => if p = "/system/lib64/libaubo_rs.so" then some 5 else none,
    ⟨some (fun _ => 0), some (), some (fun _ _ _ => 0)⟩⟩

/-- A loader environment where every path is readable and directly
loadable, but the module lacks `aubo_initialize`. -/
def partialSymEnv : LoadEnv :=
  ⟨fun _ => true, fun _ => memfdFailEnv, fun _ => some 3,
    ⟨none, some (), some (fun _ _ _ => 0)⟩⟩

/-- A loader environment where every path is readable and directly
loadable and all three symbols are present. -/
def fullSymEnv : LoadEnv :=
  ⟨fun _ => true, fun _ => memfdFailEnv, fun _ => some 3,
    ⟨some (fun _ => 0), some (), some (fun _ _ _ => 0)⟩⟩

/-- Witness for C4 at a concrete environment: only the third candidate is
readable and it loads via the direct strategy after memfd fails there. -/
theorem module_loader_first_wins_witness :
    ((tryPaths sysOnlyEnv lib_paths).1 =
      some ("/system/lib64/libaubo_rs.so", 5, false)) ∧
    ((load_rust_library sysOnlyEnv GState.start).2.attempted =
      ["/system/lib64/libaubo_rs.so"]) := by
  constructor
  · rfl
  · refine (((module_loader_first_wins sysOnlyEnv).2.2
      "/system/lib64/libaubo_rs.so" 5 false (by rfl)).2.2.2).trans ?_
    rfl

/-- C6 counterexample: a loaded module that exposes `aubo_shutdown` and
`aubo_should_block_request` but not `aubo_initialize` makes the binding
fail and releases the handle, yet the `aubo_should_block_request` global
remains bound afterwards — partial binding does remain, refuting the claim
that no entry point stays bound after a failed binding. -/
theorem partial_binding_remains :
    ((load_rust_library partialSymEnv GState.start).2.ok = false) ∧
    ((load_rust_library partialSymEnv GState.start).2.dlclosed = true) ∧
    ((load_rust_library partialSymEnv
        GState.start).1.aubo_should_block_request_fn ≠ none) := by
  refine ⟨rfl, rfl, fun hcontra => Option.noConfusion hcontra⟩

/-- C6 amended: binding outcome is all-or-nothing — it succeeds exactly
when all three entry points are present, and on any missing entry point the
binding fails and the module handle is released, this being the only case
in which the handle is ever released; however, the entry-point globals are
not cleared on failure: after any run that found a module they hold exactly
the `dlsym` results, so successfully resolved pointers stay bound even when
the binding as a whole failed. -/
theorem oracle_binding_all_or_nothing (e : LoadEnv) :
    ((load_rust_library e GState.start).2.ok = true →
      e.syms.aubo_initialize_fn.isSome = true ∧
      e.syms.aubo_shutdown_fn.isSome = true ∧
      e.syms.aubo_should_block_request_fn.isSome = true ∧
      (load_rust_library e GState.start).1.rust_lib_handle.isSome = true) ∧
    ((load_rust_library e GState.start).2.module_found = true →
      (e.syms.aubo_initialize_fn.isNone = true ∨
        e.syms.aubo_shutdown_fn.isNone = true ∨
        e.syms.aubo_should_block_request_fn.isNone = true) →
      (load_rust_library e GState.start).2.ok = false ∧
      (load_rust_library e GState.start).2.dlclosed = true ∧
      (load_rust_library e GState.start).1.rust_lib_handle = none) ∧
    ((load_rust_library e GState.start).2.dlclosed = true ↔
      (load_rust_library e GState.start).2.module_found = true ∧
      (e.syms.aubo_initialize_fn.isNone = true ∨
        e.syms.aubo_shutdown_fn.isNone = true ∨
        e.syms.aubo_should_block_request_fn.isNone = true)) ∧
    ((load_rust_library e GState.start).2.module_found = true →
      (load_rust_library e GState.start).1.aubo_should_block_request_fn =
        e.syms.aubo_should_block_request_fn ∧
      (load_rust_library e GState.start).1.aubo_initialize_fn =
        e.syms.aubo_initialize_fn ∧
      (load_rust_library e GState.start).1.aubo_shutdown_fn =
        e.syms.aubo_shutdown_fn) := by
  obtain ⟨rd, me, dl, si, ss, sb⟩ := e
  unfold load_rust_library
  cases hw : (tryPaths ⟨rd, me, dl, si, ss, sb⟩ lib_paths).1 with
  | none => cases si <;> cases ss <;> cases sb <;> simp [hw, GState.start]
  | some w =>
    obtain ⟨wp, wh, wv⟩ := w
    cases si <;> cases ss <;> cases sb <;> simp [hw, GState.start]

/-- Witness for C6 at a concrete environment where all three symbols are
present: binding succeeds and the handle is kept. -/
theorem oracle_binding_all_or_nothing_witness :
    ((load_rust_library fullSymEnv GState.start).2.ok = true) ∧
    ((load_rust_library fullSymEnv
        GState.start).1.rust_lib_handle.isSome = true) := by
  refine ⟨rfl, ?_⟩
  exact ((oracle_binding_all_or_nothing fullSymEnv).1 (by rfl)).2.2.2

/-! ## Hook installation (aubo_module.cpp lines 289-344)

`install_network_hooks` is embedded over an environment giving whether
`newSymbolResolver` succeeds, the `symbolLookup` result per symbol name,
and whether `inlineHook` succeeds at the address found for each symbol
(keyed here by the symbol name, since each name is looked up once).
-/

/-- Environment of one `install_network_hooks` run. -/
structure HookEnv where
  newResolver : Bool
  symbolLookup : String → Option Nat
  inlineHook : String → Bool

/-- Run record of one `install_network_hooks` run. -/
structure HookRun where
  success : Bool
  lookedUp : List String
  installed : List String
  resolverFreed : Bool

/-- One lookup-then-hook attempt (the pattern repeated at lines 300-340):
true exactly when the symbol was found and the inline hook succeeded. -/
def hook_target (e : HookEnv) (sym : String) : Bool :=
  match e.symbolLookup sym with
  | some _ => e.inlineHook sym
  | none => false

/-- Embedding of `install_network_hooks` (lines 289-344). -/
def install_network_hooks (e : HookEnv) : HookRun :=
  if !e.newResolver then ⟨false, [], [], false⟩
  else
    let c_ok := hook_target e "connect"
    let g_ok := hook_target e "gethostbyname"
    let a_ok := hook_target e "getaddrinfo"
    ⟨c_ok && g_ok && a_ok,
      ["connect", "gethostbyname", "getaddrinfo"],
      (if c_ok then ["connect"] else []) ++
        (if g_ok then ["gethostbyname"] else []) ++
        (if a_ok then ["getaddrinfo"] else []),
      true⟩

/-- A lookup-then-hook attempt succeeds exactly when the lookup finds the
symbol and the inline hook succeeds there. -/
theorem hook_target_true_iff (e : HookEnv) (sym : String) :
    hook_target e sym = true ↔
      ((e.symbolLookup sym).isSome = true ∧ e.inlineHook sym = true) := by
  unfold hook_target
  cases h : e.symbolLookup sym <;> simp [h]

/-- C7: once the resolver is created, all three symbols are looked up, each
symbol is hooked exactly when its own lookup and its own inline hook
succeed (independently of the other symbols), and the resolver is freed
regardless of any failures. -/
theorem hook_install_independent (e : HookEnv)
    (hres : e.newResolver = true) :
    (install_network_hooks e).lookedUp =
      ["connect", "gethostbyname", "getaddrinfo"] ∧
    ("connect" ∈ (install_network_hooks e).installed ↔
      ((e.symbolLookup "connect").isSome = true ∧
        e.inlineHook "connect" = true)) ∧
    ("gethostbyname" ∈ (install_network_hooks e).installed ↔
      ((e.symbolLookup "gethostbyname").isSome = true ∧
        e.inlineHook "gethostbyname" = true)) ∧
    ("getaddrinfo" ∈ (install_network_hooks e).installed ↔
      ((e.symbolLookup "getaddrinfo").isSome = true ∧
        e.inlineHook "getaddrinfo" = true)) ∧
    (install_network_hooks e).resolverFreed = true := by
  cases hc : hook_target e "connect" <;>
    cases hg : hook_target e "gethostbyname" <;>
      cases ha : hook_target e "getaddrinfo" <;>
        simp [install_network_hooks, hres, hc, hg, ha,
          ← hook_target_true_iff]

/-- A hook environment in which the resolver finds `gethostbyname` and
`getaddrinfo` but not `connect`, and every inline hook succeeds. -/
def bcOnlyHookEnv : HookEnv :=
  ⟨true, fun s => if s = "connect" then none else some 1, fun _ => true⟩

/-- Witness for C7 at the claim's own scenario: the resolver fails on
`connect` but `gethostbyname` and `getaddrinfo` still get hooked, and the
resolver is freed. -/
theorem hook_install_independent_witness :
    "gethostbyname" ∈ (install_network_hooks bcOnlyHookEnv).installed ∧
    "getaddrinfo" ∈ (install_network_hooks bcOnlyHookEnv).installed ∧
    "connect" ∉ (install_network_hooks bcOnlyHookEnv).installed ∧
    (install_network_hooks bcOnlyHookEnv).resolverFreed = true := by
  have h := hook_install_independent bcOnlyHookEnv rfl
  refine ⟨h.2.2.1.mpr ⟨rfl, rfl⟩, h.2.2.2.1.mpr ⟨rfl, rfl⟩,
    fun hmem => Bool.noConfusion (h.2.1.mp hmem).1, h.2.2.2.2⟩

/-! ## Lifecycle (aubo_module.cpp lines 347-381)

`onModuleLoaded` runs the stages strictly in order: load the Rust library,
call `aubo_initialize` on the fixed configuration path, install the
network hooks, and only then log success and write the `/dev/kmsg`
diagnostic.  The run record keeps the final globals and per-stage flags;
`active` is reaching the success log of line 373.
-/

/-- The fixed configuration path of line 361. -/
def config_path : String := "/data/adb/aubo-rs/aubo-rs.toml"

/-- Environment of one `onModuleLoaded` run. -/
structure LifecycleEnv where
  loadEnv : LoadEnv
  hookEnv : HookEnv
  kmsg_open_ok : Bool

/-- Run record of one `onModuleLoaded` run.  `hooksRun` is `some` exactly
when `install_network_hooks` was invoked. -/
structure LifeRun where
  state : GState
  loadOk : Bool
  oracleInitOk : Bool
  hooksRun : Option HookRun
  active : Bool
  kmsgWritten : Bool

/-- Embedding of `onModuleLoaded` (lines 347-381).  The `none` branch of
the initialize pointer is unreachable after a successful load, which
guarantees the pointer is bound. -/
def onModuleLoaded (env : LifecycleEnv) (s0 : GState) : LifeRun :=
  let lr := load_rust_library env.loadEnv s0
  if !lr.2.ok then ⟨lr.1, false, false, none, false, false⟩
  else
    match lr.1.aubo_initialize_fn with
    | none => ⟨lr.1, true, false, none, false, false⟩
    | some f =>
      if f config_path ≠ 0 then ⟨lr.1, true, false, none, false, false⟩
      else
        let hr := install_network_hooks env.hookEnv
        if !hr.success then ⟨lr.1, true, true, some hr, false, false⟩
        else ⟨lr.1, true, true, some hr, true, env.kmsg_open_ok⟩

/-- Whether a given symbol ended up hooked in a lifecycle run. -/
def hooked (r : LifeRun) (sym : String) : Bool :=
  match r.hooksRun with
  | some hr => hr.installed.contains sym
  | none => false

/-- Observable behavior of a `gethostbyname` call after the lifecycle ran:
the replacement handler fires only if the hook was installed; otherwise
the original runs directly (no trampoline exists, no oracle query). -/
def observed_gethostbyname {α : Type} (r : LifeRun)
    (old : Option String → Option α) (name : Option String) : GhbnRun α :=
  if hooked r "gethostbyname" then
    my_gethostbyname r.state.aubo_should_block_request_fn old name
  else ⟨old name, none, none⟩

/-- Observable behavior of a `getaddrinfo` call after the lifecycle ran. -/
def observed_getaddrinfo {η ρ : Type} (r : LifeRun)
    (old : Option String → Option String → η → ρ → Int)
    (node service : Option String) (hints : η) (res : ρ) : GaiRun η ρ :=
  if hooked r "getaddrinfo" then
    my_getaddrinfo r.state.aubo_should_block_request_fn old node service
      hints res
  else ⟨old node service hints res, none, none⟩

/-- Observable behavior of a `connect` call after the lifecycle ran. -/
def observed_connect {σ : Type} (r : LifeRun)
    (old : Int → Option σ → Nat → Int)
    (sockfd : Int) (addr : Option σ) (addrlen : Nat) : ConnRun σ :=
  if hooked r "connect" then
    my_connect r.state.aubo_should_block_request_fn old sockfd addr addrlen
  else ⟨old sockfd addr addrlen, none, none⟩

/-- If the oracle was not successfully initialized, `install_network_hooks`
was never invoked. -/
theorem oracleInit_false_hooksRun (env : LifecycleEnv) (s0 : GState)
    (h : (onModuleLoaded env s0).oracleInitOk = false) :
    (onModuleLoaded env s0).hooksRun = none := by
  unfold onModuleLoaded at h ⊢
  by_cases hok : (load_rust_library env.loadEnv s0).2.ok
  · simp only [hok, Bool.not_true, Bool.false_eq_true, if_false] at h ⊢
    cases hf : (load_rust_library env.loadEnv s0).1.aubo_initialize_fn with
    | none => simp [hf]
    | some f =>
      simp only [hf] at h ⊢
      by_cases hcfg : f config_path ≠ 0
      · simp [hcfg]
      · by_cases hs : (install_network_hooks env.hookEnv).success <;>
          simp [hcfg, hs] at h
  · simp [hok]

/-- Any lifecycle run that reached `Active` had a successful oracle
initialization (and a successful load) on its path. -/
theorem active_imp_oracleInit (env : LifecycleEnv) (s0 : GState)
    (h : (onModuleLoaded env s0).active = true) :
    (onModuleLoaded env s0).oracleInitOk = true ∧
    (onModuleLoaded env s0).loadOk = true := by
  unfold onModuleLoaded at h ⊢
  by_cases hok : (load_rust_library env.loadEnv s0).2.ok
  · simp only [hok, Bool.not_true, Bool.false_eq_true, if_false] at h ⊢
    cases hf : (load_rust_library env.loadEnv s0).1.aubo_initialize_fn with
    | none => simp [hf] at h
    | some f =>
      simp only [hf] at h ⊢
      by_cases hcfg : f config_path ≠ 0
      · simp [hcfg] at h
      · by_cases hs : (install_network_hooks env.hookEnv).success <;>
          simp [hcfg, hs] at h ⊢
  · simp [hok] at h

/-- C2: if the oracle was never successfully initialized (library never
loaded, symbols never bound, or `aubo_initialize` failed), every observed
call is pure passthrough — the result is exactly what the original
function returns for the same arguments and the oracle is never
queried. -/
theorem fail_open_passthrough {α η ρ σ : Type} (env : LifecycleEnv)
    (s0 : GState) (oldG : Option String → Option α)
    (oldA : Option String → Option String → η → ρ → Int)
    (oldC : Int → Option σ → Nat → Int)
    (name node service : Option String) (hints : η) (res : ρ)
    (sockfd : Int) (addr : Option σ) (addrlen : Nat)
    (h : (onModuleLoaded env s0).oracleInitOk = false) :
    observed_gethostbyname (onModuleLoaded env s0) oldG name =
      ⟨oldG name, none, none⟩ ∧
    observed_getaddrinfo (onModuleLoaded env s0) oldA node service hints
      res = ⟨oldA node service hints res, none, none⟩ ∧
    observed_connect (onModuleLoaded env s0) oldC sockfd addr addrlen =
      ⟨oldC sockfd addr addrlen, none, none⟩ := by
  have hnone := oracleInit_false_hooksRun env s0 h
  refine ⟨?_, ?_, ?_⟩ <;>
    simp [observed_gethostbyname, observed_getaddrinfo, observed_connect,
      hooked, hnone]

/-- A lifecycle environment in which no candidate library path is
readable, so the oracle is never loaded. -/
def noLibEnv : LifecycleEnv :=
  ⟨⟨fun _ => false, fun _ => memfdFailEnv, fun _ => none,
      ⟨none, none, none⟩⟩,
    ⟨true, fun _ => some 1, fun _ => true⟩, true⟩

/-- Witness for C2: with no library available, an observed DNS call just
returns the original result and issues no oracle query. -/
theorem fail_open_passthrough_witness :
    (onModuleLoaded noLibEnv GState.start).oracleInitOk = false ∧
    observed_gethostbyname (onModuleLoaded noLibEnv GState.start)
      (fun _ => some 3) (some "x") =
      ⟨some 3, none, none⟩ := by
  refine ⟨rfl, ?_⟩
  exact (fail_open_passthrough noLibEnv GState.start (fun _ => some 3)
    (fun _ _ _ _ => (0 : Int)) (fun _ _ _ => (0 : Int))
    (some "x") none none () () 0 (none : Option Unit) 0 rfl).1

/-- C3: if `aubo_initialize` returns a nonzero status, the lifecycle
aborts before hook installation — `install_network_hooks` is never invoked
and `Active` is not reached; and in general any run that reached `Active`
had a successful oracle initialization on its path. -/
theorem oracle_init_failure_aborts (env : LifecycleEnv) (s0 : GState)
    (f : String → Int)
    (hld : (load_rust_library env.loadEnv s0).2.ok = true)
    (hf : (load_rust_library env.loadEnv
      s0).1.aubo_initialize_fn = some f)
    (hnz : f config_path ≠ 0) :
    ((onModuleLoaded env s0).hooksRun = none ∧
      (onModuleLoaded env s0).active = false ∧
      (onModuleLoaded env s0).kmsgWritten = false) ∧
    (∀ e2 s2, (onModuleLoaded e2 s2).active = true →
      (onModuleLoaded e2 s2).oracleInitOk = true) := by
  constructor
  · unfold onModuleLoaded
    simp [hld, hf, hnz]
  · intro e2 s2 h2
    exact (active_imp_oracleInit e2 s2 h2).1

/-- A loader environment whose module initializes with a failing status. -/
def initFailSymEnv : LoadEnv :=
  ⟨fun _ => true, fun _ => memfdFailEnv, fun _ => some 3,
    ⟨some (fun _ => 1), some (), some (fun _ _ _ => 0)⟩⟩

/-- A hook environment where everything resolves and hooks. -/
def allHookEnv : HookEnv := ⟨true, fun _ => some 1, fun _ => true⟩

/-- Witness for C3: a module whose initialize entry point returns 1 stops
the lifecycle before any hook is attempted. -/
theorem oracle_init_failure_aborts_witness :
    (onModuleLoaded ⟨initFailSymEnv, allHookEnv, true⟩
      GState.start).hooksRun = none ∧
    (onModuleLoaded ⟨initFailSymEnv, allHookEnv, true⟩
      GState.start).active = false := by
  have h := oracle_init_failure_aborts ⟨initFailSymEnv, allHookEnv, true⟩
    GState.start (fun _ => 1) (by rfl) (by rfl) (by decide)
  exact ⟨h.1.1, h.1.2.1⟩

/-- C8 counterexample: a concrete run in which the module loads, the
oracle initializes, and all three hook installations are attempted, but
the `connect` hook fails — the lifecycle does not reach `Active` and the
success diagnostic is not written, refuting the claim that `Active` is
reached even when an installation failed. -/
theorem hook_failure_fatal_cex :
    (onModuleLoaded ⟨fullSymEnv, bcOnlyHookEnv, true⟩
      GState.start).loadOk = true ∧
    (onModuleLoaded ⟨fullSymEnv, bcOnlyHookEnv, true⟩
      GState.start).oracleInitOk = true ∧
    ((onModuleLoaded ⟨fullSymEnv, bcOnlyHookEnv, true⟩
      GState.start).hooksRun.map (fun h => h.lookedUp)) =
      some ["connect", "gethostbyname", "getaddrinfo"] ∧
    (onModuleLoaded ⟨fullSymEnv, bcOnlyHookEnv, true⟩
      GState.start).active = false ∧
    (onModuleLoaded ⟨fullSymEnv, bcOnlyHookEnv, true⟩
      GState.start).kmsgWritten = false := by
  exact ⟨rfl, rfl, rfl, rfl, rfl⟩

/-- C8 amended: when module load and oracle initialization succeed, hook
installation is always invoked (all three lookups are attempted whenever
the resolver exists), but a per-symbol installation failure is fatal to
activation: the lifecycle reaches `Active` exactly when
`install_network_hooks` reports success, which requires all three hooks to
have been installed. -/
theorem hook_failure_aborts_active (env : LifecycleEnv) (s0 : GState)
    (f : String → Int)
    (hld : (load_rust_library env.loadEnv s0).2.ok = true)
    (hf : (load_rust_library env.loadEnv
      s0).1.aubo_initialize_fn = some f)
    (hz : f config_path = 0) :
    (onModuleLoaded env s0).hooksRun =
      some (install_network_hooks env.hookEnv) ∧
    ((onModuleLoaded env s0).active = true ↔
      (install_network_hooks env.hookEnv).success = true) ∧
    (env.hookEnv.newResolver = true →
      (onModuleLoaded env s0).hooksRun.map (fun h => h.lookedUp) =
        some ["connect", "gethostbyname", "getaddrinfo"]) := by
  unfold onModuleLoaded
  by_cases hs : (install_network_hooks env.hookEnv).success <;>
    simp [hld, hf, hz, hs] <;>
    intro hres <;>
    simp [install_network_hooks, hres]

/-- Witness for C8: when all three hooks install, the same run reaches
`Active`. -/
theorem hook_failure_aborts_active_witness :
    (onModuleLoaded ⟨fullSymEnv, allHookEnv, true⟩
      GState.start).active = true := by
  exact (hook_failure_aborts_active ⟨fullSymEnv, allHookEnv, true⟩
    GState.start (fun _ => 0) (by rfl) (by rfl) (by rfl)).2.1.mpr (by rfl)

/-- C1: with the oracle bound and a non-null target, a block verdict makes
`my_gethostbyname` return a null hostent and `my_getaddrinfo` return
`EAI_NONAME`, in both cases without invoking the trampoline; an allow
verdict makes each handler invoke its trampoline with unchanged arguments
(service included) and return the trampoline result unchanged. -/
theorem dns_handlers_block_allow {α η ρ : Type} (q : Query)
    (oldG : Option String → Option α)
    (oldA : Option String → Option String → η → ρ → Int)
    (n m : String) (service : Option String) (hints : η) (res : ρ) :
    (q n "dns" "gethostbyname" ≠ 0 →
      (my_gethostbyname (some q) oldG (some n)).result = none ∧
      (my_gethostbyname (some q) oldG (some n)).trampCall = none) ∧
    (q n "dns" "gethostbyname" = 0 →
      (my_gethostbyname (some q) oldG (some n)).result = oldG (some n) ∧
      (my_gethostbyname (some q) oldG (some n)).trampCall = some (some n)) ∧
    (q m "dns" "getaddrinfo" ≠ 0 →
      (my_getaddrinfo (some q) oldA (some m) service hints res).result =
        EAI_NONAME ∧
      (my_getaddrinfo (some q) oldA (some m) service hints res).trampCall =
        none) ∧
    (q m "dns" "getaddrinfo" = 0 →
      (my_getaddrinfo (some q) oldA (some m) service hints res).result =
        oldA (some m) service hints res ∧
      (my_getaddrinfo (some q) oldA (some m) service hints res).trampCall =
        some (some m, service, hints, res)) := by
  refine ⟨fun h => ?_, fun h => ?_, fun h => ?_, fun h => ?_⟩ <;>
    simp [my_gethostbyname, my_getaddrinfo, h]

/-- Witness for C1 at concrete inputs: an oracle that blocks targets equal
to "ads.example" and allows the rest. -/
theorem dns_handlers_block_allow_witness :
    ((my_gethostbyname (α := Nat)
        (some (fun t _ _ => if t = "ads.example" then 1 else 0))
        (fun _ => some 7) (some "ads.example")).result = none ∧
      (my_gethostbyname (α := Nat)
        (some (fun t _ _ => if t = "ads.example" then 1 else 0))
        (fun _ => some 7) (some "ads.example")).trampCall = none) ∧
    ((my_getaddrinfo (η := Unit) (ρ := Unit)
        (some (fun t _ _ => if t = "ads.example" then 1 else 0))
        (fun _ _ _ _ => 0) (some "ok.example") (some "https") () ()).result =
        (0 : Int) ∧
      (my_getaddrinfo (η := Unit) (ρ := Unit)
        (some (fun t _ _ => if t = "ads.example" then 1 else 0))
        (fun _ _ _ _ => 0) (some "ok.example") (some "https") ()
        ()).trampCall = some (some "ok.example", some "https", (), ())) := by
  have h1 := (dns_handlers_block_allow
    (fun t _ _ => if t = "ads.example" then 1 else 0)
    (fun _ => (some 7 : Option Nat)) (fun _ _ _ _ => (0 : Int))
    "ads.example" "ok.example" (some "https") () ()).1 (by decide)
  have h2 := ((dns_handlers_block_allow
    (fun t _ _ => if t = "ads.example" then 1 else 0)
    (fun _ => (some 7 : Option Nat)) (fun _ _ _ _ => (0 : Int))
    "ads.example" "ok.example" (some "https") () ()).2.2.2 (by decide))
  exact ⟨h1, h2⟩

/-- C9 counterexample: at a concrete input, both handlers pass the same
requestKind tag "dns" to the oracle; the tags are not distinct, refuting
the claim that the two handlers pass distinct requestKind tags. -/
theorem dns_request_kind_not_distinct :
    ((my_gethostbyname (α := Nat) (some (fun _ _ _ => 1)) (fun _ => none)
        (some "a")).oracleCall.map (fun t => t.2.1) = some "dns") ∧
    ((my_getaddrinfo (η := Unit) (ρ := Unit) (some (fun _ _ _ => 1))
        (fun _ _ _ _ => 0) (some "a") none () ()).oracleCall.map
        (fun t => t.2.1) = some "dns") ∧
    ¬ ((my_gethostbyname (α := Nat) (some (fun _ _ _ => 1)) (fun _ => none)
        (some "a")).oracleCall.map (fun t => t.2.1) ≠
      (my_getaddrinfo (η := Unit) (ρ := Unit) (some (fun _ _ _ => 1))
        (fun _ _ _ _ => 0) (some "a") none () ()).oracleCall.map
        (fun t => t.2.1)) := by
  refine ⟨?_, ?_, ?_⟩ <;> simp [my_gethostbyname, my_getaddrinfo]

/-- C9 amended: each handler queries the oracle with target, requestKind
"dns" (the same tag for both handlers) and its own origin string, the
origins "gethostbyname" and "getaddrinfo" being distinct. -/
theorem dns_request_descriptors {α η ρ : Type} (q : Query)
    (oldG : Option String → Option α)
    (oldA : Option String → Option String → η → ρ → Int)
    (n m : String) (service : Option String) (hints : η) (res : ρ) :
    (my_gethostbyname (some q) oldG (some n)).oracleCall =
      some (n, "dns", "gethostbyname") ∧
    (my_getaddrinfo (some q) oldA (some m) service hints res).oracleCall =
      some (m, "dns", "getaddrinfo") ∧
    ("gethostbyname" : String) ≠ "getaddrinfo" := by
  refine ⟨?_, ?_, by decide⟩ <;>
    simp only [my_gethostbyname, my_getaddrinfo] <;> split <;> rfl

/-- C10: a null target pointer skips the oracle query entirely and forwards
to the trampoline, whatever verdict the (bound) oracle would have given. -/
theorem dns_null_target_passthrough {α η ρ : Type} (q : Query)
    (oldG : Option String → Option α)
    (oldA : Option String → Option String → η → ρ → Int)
    (service : Option String) (hints : η) (res : ρ) :
    (my_gethostbyname (some q) oldG none).result = oldG none ∧
    (my_gethostbyname (some q) oldG none).oracleCall = none ∧
    (my_gethostbyname (some q) oldG none).trampCall = some none ∧
    (my_getaddrinfo (some q) oldA none service hints res).result =
      oldA none service hints res ∧
    (my_getaddrinfo (some q) oldA none service hints res).oracleCall =
      none ∧
    (my_getaddrinfo (some q) oldA none service hints res).trampCall =
      some (none, service, hints, res) := by
  refine ⟨rfl, rfl, rfl, rfl, rfl, rfl⟩

end Aubo
